import Mathlib

/-!
Shallow embedding of the AI_edit video-pipeline orchestration core:

* the conditional-routing guards and the pipeline driver of
  `src/orchestrator/graph_builder.py`,
* the SQLite-backed project table and stage ledger of
  `src/config/prompts.py` (class `Database`), and
* the checkpoint store of `src/utils/project_manager.py`.

Python dictionaries/TypedDicts are modelled as Lean structures; artifact
fields tested with Python truthiness (`state.get('frames')`) are modelled
as lists where `[]` stands for a Python-falsy value (absent, `None`, or
empty).  Monetary amounts and timestamps are modelled as rationals so that
arithmetic on them is exact; SQL `NULL` is modelled with `Option`.
-/

/-- The pipeline state threaded through the LangGraph workflow
(the `PipelineState` TypedDict of `orchestration/state_schema.py`).
Fields follow spec section 3. -/
structure PipelineState where
  project_id : String
  video_path : String
  config : List (String × String)
  user_preferences : List (String × String)
  status : String
  frames : List String
  cursor_events : List String
  frame_descriptions : List String
  transcript : List String
  silence_segments : List String
  event_timeline : List String
  edit_plan : List String
  final_video_path : Option String
  errors : List String
  warnings : List String
  completed_stages : List String
  total_cost_usd : ℚ
  total_tokens : Int
  processing_time : Option ℚ
deriving DecidableEq

/-- `should_continue_after_parallel` (graph_builder.py, conditional edge
after the `cursor_detector` node).  The Python function mutates `state` in
place and returns a route string; it is modelled as returning the route
together with the updated state. -/
def should_continue_after_parallel (state : PipelineState) : String × PipelineState :=
  if state.status = "error" then ("output", state)
  else if state.frames = [] then
    ("output", { state with
      errors := state.errors ++ ["Frame extraction failed"],
      status := "error" })
  else ("vision_description", state)

/-- `should_continue_after_vision` (graph_builder.py, conditional edge after
the `vision_description` node). -/
def should_continue_after_vision (state : PipelineState) : String × PipelineState :=
  if state.status = "error" then ("output", state)
  else if state.frame_descriptions = [] then
    ("output", { state with
      errors := state.errors ++ ["Vision analysis failed"],
      status := "error" })
  else ("analysis_agent", state)

/-- `should_render` (graph_builder.py, conditional edge after the
`script_planner` node). -/
def should_render (state : PipelineState) : String × PipelineState :=
  if state.status = "error" then ("output", state)
  else if state.edit_plan = [] then
    ("output", { state with
      warnings := state.warnings ++ ["Edit plan missing, skipping render"] })
  else ("render", state)

/-- Modelled from the spec: `create_initial_state` from
`orchestration/state_schema.py`, which is not under src/.  Spec section 4.1:
initializes all optional artifact fields to empty/absent, `status = created`,
empty `errors`/`warnings`/`completed_stages`, zero cost/token totals; fails
(`ValidationError`) if `project_id` or `video_path` is empty. -/
def create_initial_state (project_id video_path : String)
    (config user_preferences : List (String × String)) : Except String PipelineState :=
  if project_id = "" ∨ video_path = "" then
    Except.error "ValidationError: project_id and video_path must be non-empty"
  else Except.ok
    { project_id := project_id
      video_path := video_path
      config := config
      user_preferences := user_preferences
      status := "created"
      frames := []
      cursor_events := []
      frame_descriptions := []
      transcript := []
      silence_segments := []
      event_timeline := []
      edit_plan := []
      final_video_path := none
      errors := []
      warnings := []
      completed_stages := []
      total_cost_usd := 0
      total_tokens := 0
      processing_time := none }

/-- `execute_pipeline` (graph_builder.py).  The compiled graph's `invoke` is
an external call and is passed in as a function returning `Except` (an
`Except.error` models a raised exception).  State creation happens before
the `try:` block, so a failure of `create_initial_state` propagates to the
caller; an exception from `app.invoke` is caught, recorded on the initial
state, and the state is returned. -/
def execute_pipeline (invoke : PipelineState → Except String PipelineState)
    (project_id video_path : String)
    (config user_preferences : List (String × String)) : Except String PipelineState :=
  match create_initial_state project_id video_path config user_preferences with
  | Except.error e => Except.error e
  | Except.ok initial_state =>
    Except.ok (match invoke initial_state with
      | Except.ok final_state => final_state
      | Except.error e =>
        { initial_state with
          status := "error"
          errors := initial_state.errors ++ ["Pipeline execution error: " ++ e] })

/-- The stage names of the fixed topology declared in `build_pipeline_graph`
(graph_builder.py); `done` stands for the LangGraph `END` marker. -/
inductive Stage where
  | intake
  | frame_extractor
  | cursor_detector
  | audio_agent
  | vision_description
  | analysis_agent
  | script_planner
  | render
  | output
  | done
deriving DecidableEq

/-- The conditional edge registered on `cursor_detector`: route by
`should_continue_after_parallel` through the mapping
`{"vision_description": vision_description, "output": output}`. -/
def routeAfterCursor (st : PipelineState) : Stage × PipelineState :=
  match should_continue_after_parallel st with
  | (r, st') => (if r = "vision_description" then Stage.vision_description else Stage.output, st')

/-- The conditional edge registered on `vision_description`: route by
`should_continue_after_vision` through
`{"analysis_agent": analysis_agent, "output": output}`. -/
def routeAfterVision (st : PipelineState) : Stage × PipelineState :=
  match should_continue_after_vision st with
  | (r, st') => (if r = "analysis_agent" then Stage.analysis_agent else Stage.output, st')

/-- The conditional edge registered on `script_planner`: route by
`should_render` through `{"render": render, "output": output}`. -/
def routeAfterScript (st : PipelineState) : Stage × PipelineState :=
  match should_render st with
  | (r, st') => (if r = "render" then Stage.render else Stage.output, st')

/-- One transition of the stage graph declared in `build_pipeline_graph`:
from a configuration "about to run node `s` with state `st`", execute the
node body (`exec s st`, the node bodies live in `orchestration/nodes.py`
and are kept abstract) and follow the edge registered on `s`. -/
inductive Step (exec : Stage → PipelineState → PipelineState) :
    Stage → PipelineState → Stage → PipelineState → Prop where
  | intake_step (st : PipelineState) :
      Step exec Stage.intake st Stage.frame_extractor (exec Stage.intake st)
  | frame_to_cursor (st : PipelineState) :
      Step exec Stage.frame_extractor st Stage.cursor_detector (exec Stage.frame_extractor st)
  | frame_to_audio (st : PipelineState) :
      Step exec Stage.frame_extractor st Stage.audio_agent (exec Stage.frame_extractor st)
  | cursor_step (st : PipelineState) :
      Step exec Stage.cursor_detector st
        (routeAfterCursor (exec Stage.cursor_detector st)).1
        (routeAfterCursor (exec Stage.cursor_detector st)).2
  | audio_step (st : PipelineState) :
      Step exec Stage.audio_agent st Stage.vision_description (exec Stage.audio_agent st)
  | vision_step (st : PipelineState) :
      Step exec Stage.vision_description st
        (routeAfterVision (exec Stage.vision_description st)).1
        (routeAfterVision (exec Stage.vision_description st)).2
  | analysis_step (st : PipelineState) :
      Step exec Stage.analysis_agent st Stage.script_planner (exec Stage.analysis_agent st)
  | script_step (st : PipelineState) :
      Step exec Stage.script_planner st
        (routeAfterScript (exec Stage.script_planner st)).1
        (routeAfterScript (exec Stage.script_planner st)).2
  | render_step (st : PipelineState) :
      Step exec Stage.render st Stage.output (exec Stage.render st)
  | output_step (st : PipelineState) :
      Step exec Stage.output st Stage.done (exec Stage.output st)

/-- Reflexive-transitive closure of `Step`: the configurations a run can
visit from a given one. -/
inductive Reach (exec : Stage → PipelineState → PipelineState) :
    Stage → PipelineState → Stage → PipelineState → Prop where
  | refl (s : Stage) (st : PipelineState) : Reach exec s st s st
  | tail {s1 s2 s3 : Stage} {st1 st2 st3 : PipelineState} :
      Reach exec s1 st1 s2 st2 → Step exec s2 st2 s3 st3 → Reach exec s1 st1 s3 st3

/-- Node bodies preserve an already-raised error status (spec section 3:
once `status == error`, no further stage may mutate state except Output,
which leaves an `error` status in place). -/
def errPreserving (exec : Stage → PipelineState → PipelineState) : Prop :=
  ∀ s st, st.status = "error" → (exec s st).status = "error"

/-- Only the `render` node body produces `final_video_path`
(spec section 6: Render is the sole producer of `final_video_path`). -/
def fvpOnlyRender (exec : Stage → PipelineState → PipelineState) : Prop :=
  ∀ s st, s ≠ Stage.render → (exec s st).final_video_path = st.final_video_path

lemma reach_output_terminal (exec : Stage → PipelineState → PipelineState) :
    ∀ s1 st1 s2 st2, Reach exec s1 st1 s2 st2 →
      (s1 = Stage.output ∨ s1 = Stage.done) → (s2 = Stage.output ∨ s2 = Stage.done) := by
  intro s1 st1 s2 st2 h
  induction h with
  | refl => exact id
  | tail _ hstep ih =>
    intro h1
    rcases ih h1 with h2 | h2
    · subst h2; cases hstep; exact Or.inr rfl
    · subst h2; cases hstep

lemma reach_error_stuck (exec : Stage → PipelineState → PipelineState)
    (hp : errPreserving exec) :
    ∀ s1 st1 s2 st2, Reach exec s1 st1 s2 st2 →
      ((s1 = Stage.vision_description ∨ s1 = Stage.output ∨ s1 = Stage.done) ∧
        st1.status = "error") →
      ((s2 = Stage.vision_description ∨ s2 = Stage.output ∨ s2 = Stage.done) ∧
        st2.status = "error") := by
  intro s1 st1 s2 st2 h
  induction h with
  | refl => exact id
  | tail _ hstep ih =>
    intro h1
    obtain ⟨hs, herr⟩ := ih h1
    rcases hs with h2 | h2 | h2
    · subst h2
      cases hstep with
      | vision_step stmid =>
        have herr2 := hp Stage.vision_description _ herr
        constructor
        · simp [routeAfterVision, should_continue_after_vision, herr2]
        · simp [routeAfterVision, should_continue_after_vision, herr2]
    · subst h2
      cases hstep with
      | output_step stmid => exact ⟨Or.inr (Or.inr rfl), hp Stage.output _ herr⟩
    · subst h2; cases hstep

lemma reach_output_fvp (exec : Stage → PipelineState → PipelineState)
    (hf : fvpOnlyRender exec) :
    ∀ s1 st1 s2 st2, Reach exec s1 st1 s2 st2 →
      ((s1 = Stage.output ∨ s1 = Stage.done) ∧ st1.final_video_path = none) →
      ((s2 = Stage.output ∨ s2 = Stage.done) ∧ st2.final_video_path = none) := by
  intro s1 st1 s2 st2 h
  induction h with
  | refl => exact id
  | tail _ hstep ih =>
    intro h1
    obtain ⟨hs, hn⟩ := ih h1
    rcases hs with h2 | h2
    · subst h2
      cases hstep with
      | output_step stmid =>
        refine ⟨Or.inr rfl, ?_⟩
        rw [hf Stage.output _ (by decide)]
        exact hn
    · subst h2; cases hstep

/-- A concrete post-fan-out pipeline state in which frame extraction
produced no frames. -/
def demoNoFrames : PipelineState :=
  { project_id := "p1"
    video_path := "v.mp4"
    config := []
    user_preferences := []
    status := "created"
    frames := []
    cursor_events := []
    frame_descriptions := []
    transcript := []
    silence_segments := []
    event_timeline := []
    edit_plan := []
    final_video_path := none
    errors := []
    warnings := []
    completed_stages := []
    total_cost_usd := 0
    total_tokens := 0
    processing_time := none }

/-- A concrete state that reached `script_planner` successfully but with an
absent edit plan. -/
def demoNoEditPlan : PipelineState :=
  { demoNoFrames with
    status := "running"
    frames := ["f0.png"]
    frame_descriptions := ["a frame"]
    transcript := ["hello"]
    event_timeline := ["t0"] }

/-- C1: After the `cursor_detector` stage, `should_continue_after_parallel`
routes a state whose status is already `error` to `output` unchanged; it
routes a non-error state whose frames artifact is absent or empty to
`output` after appending the frame-extraction failure message to `errors`
and setting `status` to `error`, and from that point neither `render` nor
`script_planner` can execute on the run (neither on the direct `output`
branch nor on the parallel `audio_agent` branch that joins at
`vision_description`); every other state is routed to
`vision_description`. -/
theorem should_continue_after_parallel_routing
    (st : PipelineState) (exec : Stage → PipelineState → PipelineState)
    (hp : errPreserving exec) :
    (st.status = "error" → should_continue_after_parallel st = ("output", st)) ∧
    (st.status ≠ "error" → st.frames = [] →
      should_continue_after_parallel st =
        ("output", { st with
          errors := st.errors ++ ["Frame extraction failed"], status := "error" }) ∧
      (∀ s2 st2, Reach exec Stage.output (should_continue_after_parallel st).2 s2 st2 →
        s2 ≠ Stage.render ∧ s2 ≠ Stage.script_planner) ∧
      (∀ stA s2 st2, stA.status = "error" →
        Reach exec Stage.vision_description stA s2 st2 →
        s2 ≠ Stage.render ∧ s2 ≠ Stage.script_planner)) ∧
    (st.status ≠ "error" → st.frames ≠ [] →
      should_continue_after_parallel st = ("vision_description", st)) := by
  refine ⟨?_, ?_, ?_⟩
  · intro h
    simp [should_continue_after_parallel, h]
  · intro h hf
    refine ⟨by simp [should_continue_after_parallel, h, hf], ?_, ?_⟩
    · intro s2 st2 hr
      have h2 := reach_output_terminal exec _ _ _ _ hr (Or.inl rfl)
      rcases h2 with h2 | h2 <;> subst h2 <;> exact ⟨by decide, by decide⟩
    · intro stA s2 st2 herr hr
      have h2 := reach_error_stuck exec hp _ _ _ _ hr ⟨Or.inl rfl, herr⟩
      rcases h2.1 with h2 | h2 | h2 <;> subst h2 <;> exact ⟨by decide, by decide⟩
  · intro h hf
    simp [should_continue_after_parallel, h, hf]

theorem should_continue_after_parallel_routing_witness :
    should_continue_after_parallel demoNoFrames =
      ("output", { demoNoFrames with
        errors := demoNoFrames.errors ++ ["Frame extraction failed"],
        status := "error" }) :=
  ((should_continue_after_parallel_routing demoNoFrames (fun _ s => s)
      (fun _ _ h => h)).2.1 (by decide) rfl).1

/-- C2: After the `script_planner` stage, `should_render` routes a state
whose status is already `error` to `output` unchanged; it routes a
non-error state with an absent edit plan to `output` after appending the
edit-plan-missing notice to `warnings`, leaving `status` unchanged, and
from that point `render` never executes and `final_video_path` stays
absent (when `exec` lets only the render node produce it); a non-error
state with an edit plan present is routed to `render`. -/
theorem should_render_routing
    (st : PipelineState) (exec : Stage → PipelineState → PipelineState)
    (hf : fvpOnlyRender exec) :
    (st.status = "error" → should_render st = ("output", st)) ∧
    (st.status ≠ "error" → st.edit_plan = [] →
      should_render st =
        ("output", { st with
          warnings := st.warnings ++ ["Edit plan missing, skipping render"] }) ∧
      (should_render st).2.status = st.status ∧
      (st.final_video_path = none →
        ∀ s2 st2, Reach exec Stage.output (should_render st).2 s2 st2 →
          s2 ≠ Stage.render ∧ st2.final_video_path = none)) ∧
    (st.status ≠ "error" → st.edit_plan ≠ [] →
      should_render st = ("render", st)) := by
  refine ⟨?_, ?_, ?_⟩
  · intro h
    simp [should_render, h]
  · intro h he
    refine ⟨by simp [should_render, h, he], by simp [should_render, h, he], ?_⟩
    intro hn s2 st2 hr
    have h2 := reach_output_fvp exec hf _ _ _ _ hr
      ⟨Or.inl rfl, by simp [should_render, h, he, hn]⟩
    refine ⟨?_, h2.2⟩
    rcases h2.1 with h3 | h3 <;> subst h3 <;> decide
  · intro h he
    simp [should_render, h, he]

theorem should_render_routing_witness :
    should_render demoNoEditPlan =
      ("output", { demoNoEditPlan with
        warnings := demoNoEditPlan.warnings ++ ["Edit plan missing, skipping render"] }) ∧
    (should_render demoNoEditPlan).2.status = demoNoEditPlan.status :=
  have h := (should_render_routing demoNoEditPlan (fun _ s => s)
    (fun _ _ _ => rfl)).2.1 (by decide) rfl
  ⟨h.1, h.2.1⟩

/-- C3 counterexample: invoked with an empty `project_id`,
`execute_pipeline` propagates the creation failure to its caller instead of
returning a final state, because `create_initial_state` runs before the
`try:` block. -/
theorem execute_pipeline_raises_on_empty_id :
    execute_pipeline (fun st => Except.ok st) "" "video.mp4" [] [] =
      Except.error "ValidationError: project_id and video_path must be non-empty" := rfl

/-- C3 (amended): for every input with non-empty `project_id` and
`video_path`, `execute_pipeline` returns a final state to its caller rather
than raising: a graph invocation that succeeds has its final state returned
unchanged, and a graph invocation that throws is caught, with the returned
state carrying `status = "error"` and a message describing the exception
appended to `errors`. -/
theorem execute_pipeline_returns_state
    (invoke : PipelineState → Except String PipelineState)
    (project_id video_path : String) (config user_preferences : List (String × String))
    (hp : project_id ≠ "") (hv : video_path ≠ "") :
    (∃ final, execute_pipeline invoke project_id video_path config user_preferences =
        Except.ok final) ∧
    (∀ init e,
      create_initial_state project_id video_path config user_preferences = Except.ok init →
      invoke init = Except.error e →
      execute_pipeline invoke project_id video_path config user_preferences =
        Except.ok { init with
          status := "error"
          errors := init.errors ++ ["Pipeline execution error: " ++ e] }) ∧
    (∀ init final,
      create_initial_state project_id video_path config user_preferences = Except.ok init →
      invoke init = Except.ok final →
      execute_pipeline invoke project_id video_path config user_preferences =
        Except.ok final) := by
  obtain ⟨init, hc⟩ : ∃ init,
      create_initial_state project_id video_path config user_preferences =
        Except.ok init := by
    rw [create_initial_state, if_neg (not_or.mpr ⟨hp, hv⟩)]
    exact ⟨_, rfl⟩
  refine ⟨?_, ?_, ?_⟩
  · cases hi : invoke init with
    | ok final => exact ⟨final, by simp [execute_pipeline, hc, hi]⟩
    | error e =>
      exact ⟨{ init with
        status := "error"
        errors := init.errors ++ ["Pipeline execution error: " ++ e] },
        by simp [execute_pipeline, hc, hi]⟩
  · intro init' e hc' hi
    rw [hc] at hc'
    cases hc'
    simp [execute_pipeline, hc, hi]
  · intro init' final hc' hi
    rw [hc] at hc'
    cases hc'
    simp [execute_pipeline, hc, hi]

theorem execute_pipeline_returns_state_witness :
    ∃ final, execute_pipeline (fun _ => Except.error "boom") "p1" "v.mp4" [] [] =
      Except.ok final :=
  (execute_pipeline_returns_state (fun _ => Except.error "boom") "p1" "v.mp4" [] []
    (by decide) (by decide)).1

/-- One row of the `pipeline_stages` table (src/config/prompts.py,
`Database._create_tables`).  `created_at` is the SQLite insertion timestamp
(`DEFAULT CURRENT_TIMESTAMP` together with the AUTOINCREMENT id), modelled
as the number of rows present when the row was inserted, which is strictly
monotone in insertion order. -/
structure LedgerEntry where
  project_id : String
  stage_name : String
  status : String
  start_time : Option ℚ
  end_time : Option ℚ
  duration_seconds : Option ℚ
  tokens_used : Int
  cost_usd : ℚ
  error_message : Option String
  created_at : Nat
deriving DecidableEq

/-- `Database.log_stage` (prompts.py): computes `duration_seconds` when both
times are provided (Python: `if start_time and end_time`) and INSERTs a new
row into `pipeline_stages`.  The function only ever inserts; it contains no
UPDATE statement. -/
def log_stage (db : List LedgerEntry) (project_id stage_name status : String)
    (start_time end_time : Option ℚ) (tokens_used : Int) (cost_usd : ℚ)
    (error_message : Option String) : List LedgerEntry :=
  let duration_seconds : Option ℚ :=
    match start_time, end_time with
    | some t0, some t1 => some (t1 - t0)
    | _, _ => none
  db ++ [{ project_id := project_id
           stage_name := stage_name
           status := status
           start_time := start_time
           end_time := end_time
           duration_seconds := duration_seconds
           tokens_used := tokens_used
           cost_usd := cost_usd
           error_message := error_message
           created_at := db.length }]

/-- Insert one row into a list kept in ascending `created_at` order
(helper for the SQL `ORDER BY created_at ASC` model). -/
def insertByCreated (e : LedgerEntry) : List LedgerEntry → List LedgerEntry
  | [] => [e]
  | x :: xs => if e.created_at < x.created_at then e :: x :: xs else x :: insertByCreated e xs

/-- Sort a list of rows by ascending `created_at` (the SQL
`ORDER BY created_at ASC` of `get_project_stages`). -/
def orderByCreated : List LedgerEntry → List LedgerEntry
  | [] => []
  | x :: xs => insertByCreated x (orderByCreated xs)

/-- `Database.get_project_stages` (prompts.py):
`SELECT * FROM pipeline_stages WHERE project_id = ? ORDER BY created_at ASC`. -/
def get_project_stages (db : List LedgerEntry) (project_id : String) : List LedgerEntry :=
  orderByCreated (db.filter (fun e => e.project_id = project_id))

/-- The rows of `pipeline_stages` belonging to one project
(the `WHERE project_id = ?` clause). -/
def projectEntries (db : List LedgerEntry) (project_id : String) : List LedgerEntry :=
  db.filter (fun e => e.project_id = project_id)

/-- SQL `SUM(...)`: `NULL` on an empty row set, the sum otherwise. -/
def sqlSumQ (xs : List ℚ) : Option ℚ :=
  match xs with
  | [] => none
  | _ => some xs.sum

/-- SQL `SUM(...)` over an integer column. -/
def sqlSumInt (xs : List Int) : Option Int :=
  match xs with
  | [] => none
  | _ => some xs.sum

/-- `SUM(cost_usd) ... GROUP BY stage_name` for one group. -/
def stageCost (es : List LedgerEntry) (stage_name : String) : ℚ :=
  ((es.filter (fun e => e.stage_name = stage_name)).map (fun e => e.cost_usd)).sum

/-- Result shape of `Database.get_project_cost_summary`; `breakdown` is the
Python dict `stage_name -> cost`, modelled as an association list with
distinct keys. -/
structure CostSummary where
  total_tokens : Int
  total_cost_usd : ℚ
  breakdown : List (String × ℚ)
deriving DecidableEq

/-- `Database.get_project_cost_summary` (prompts.py), success path: one
grouped query per `stage_name` (building `breakdown` from each group's
`SUM(cost_usd)`) and one totals query whose possibly-NULL sums are
defaulted with `or 0` / `or 0.0`. -/
def get_project_cost_summary (db : List LedgerEntry) (project_id : String) : CostSummary :=
  let es := projectEntries db project_id
  { total_tokens := (sqlSumInt (es.map (fun e => e.tokens_used))).getD 0
    total_cost_usd := (sqlSumQ (es.map (fun e => e.cost_usd))).getD 0
    breakdown := ((es.map (fun e => e.stage_name)).dedup).map
      (fun s => (s, stageCost es s)) }

/-- `Database.get_project_cost_summary` including its `try/except` wrapper:
when the underlying store read fails (`dbOk = false`), the except branch
returns the all-zero summary. -/
def get_project_cost_summary_guarded (dbOk : Bool) (db : List LedgerEntry)
    (project_id : String) : CostSummary :=
  if dbOk then get_project_cost_summary db project_id
  else { total_tokens := 0, total_cost_usd := 0, breakdown := [] }

/-- The ledger of claim C4: entries with per-stage costs
(A, $1.00), (A, $2.00), (B, $0.50), built through `log_stage`. -/
def demoLedger : List LedgerEntry :=
  log_stage (log_stage (log_stage [] "p" "A" "completed" none none 10 1 none)
    "p" "A" "completed" none none 20 2 none)
    "p" "B" "completed" none none 5 (1/2) none

/-- One run's writes for a single stage invocation as prescribed by spec
section 4.2: a `started` row at stage start and a `completed` row at stage
end, both through the INSERT-only `log_stage`. -/
def dbStartedCompleted : List LedgerEntry :=
  log_stage (log_stage [] "p" "intake" "started" (some 0) none 0 0 none)
    "p" "intake" "completed" (some 0) (some 2) 10 (1/100) none

/-- Two `started` rows whose insertion order disagrees with their
start-time order. -/
def dbOutOfOrder : List LedgerEntry :=
  log_stage (log_stage [] "p" "b" "started" (some 5) none 0 0 none)
    "p" "a" "started" (some 3) none 0 0 none

/-- The ledger rows, in the order returned, are in start-time order:
whenever two adjacent rows both carry a start time, the earlier row's start
time is not larger. -/
def startTimesInOrder (es : List LedgerEntry) : Prop :=
  List.Chain' (fun a b =>
    match a.start_time, b.start_time with
    | some ta, some tb => ta ≤ tb
    | _, _ => True) es


lemma sqlSumInt_getD (xs : List Int) : (sqlSumInt xs).getD 0 = xs.sum := by
  cases xs <;> simp [sqlSumInt]

lemma sqlSumQ_getD (xs : List ℚ) : (sqlSumQ xs).getD 0 = xs.sum := by
  cases xs <;> simp [sqlSumQ]

lemma lookup_map_pair (f : String → ℚ) :
    ∀ (l : List String), ∀ s ∈ l, (l.map (fun x => (x, f x))).lookup s = some (f s) := by
  intro l
  induction l with
  | nil => intro s hs; cases hs
  | cons a t ih =>
    intro s hs
    by_cases hsa : s = a
    · subst hsa
      simp [List.lookup]
    · have hst : s ∈ t := by
        rcases List.mem_cons.mp hs with h | h
        · exact absurd h hsa
        · exact h
      have hb : (s == a) = false := beq_false_of_ne hsa
      simp only [List.map_cons, List.lookup, hb]
      exact ih s hst

/-- C4: `get_project_cost_summary` aggregation.  For the concrete ledger
with per-stage costs (A, $1.00), (A, $2.00), (B, $0.50) it returns
`total_cost_usd = 3.50` with breakdown `{A: 3.00, B: 0.50}`; in general
`total_tokens` and `total_cost_usd` are the sums over all of the project's
ledger entries and `breakdown` maps each stage name occurring among the
project's entries to the sum of `cost_usd` over that project's entries
with that stage name. -/
theorem get_project_cost_summary_aggregation :
    get_project_cost_summary demoLedger "p" =
      { total_tokens := 35
        total_cost_usd := 7/2
        breakdown := [("A", 3), ("B", 1/2)] } ∧
    ∀ (db : List LedgerEntry) (project_id stage : String),
      (get_project_cost_summary db project_id).total_tokens =
        ((projectEntries db project_id).map (fun e => e.tokens_used)).sum ∧
      (get_project_cost_summary db project_id).total_cost_usd =
        ((projectEntries db project_id).map (fun e => e.cost_usd)).sum ∧
      (stage ∈ (projectEntries db project_id).map (fun e => e.stage_name) →
        (get_project_cost_summary db project_id).breakdown.lookup stage =
          some (stageCost (projectEntries db project_id) stage)) := by
  constructor
  · have hb : ((projectEntries demoLedger "p").map (fun e => e.stage_name)).dedup =
        ["A", "B"] := by decide
    have e1 : decide ("B" = "A") = false := rfl
    have e2 : decide ("A" = "B") = false := rfl
    simp only [get_project_cost_summary, hb]
    norm_num [CostSummary.mk.injEq, projectEntries, demoLedger, log_stage, stageCost,
      sqlSumInt, sqlSumQ, List.filter, e1, e2]
  · intro db project_id stage
    refine ⟨?_, ?_, ?_⟩
    · exact sqlSumInt_getD _
    · exact sqlSumQ_getD _
    · intro hs
      exact lookup_map_pair (stageCost (projectEntries db project_id)) _ stage
        (List.mem_dedup.mpr hs)

theorem get_project_cost_summary_aggregation_witness :
    (get_project_cost_summary demoLedger "p").breakdown.lookup "A" =
      some (stageCost (projectEntries demoLedger "p") "A") :=
  (get_project_cost_summary_aggregation.2 demoLedger "p" "A").2.2 (by decide)

/-- C9: `get_project_cost_summary` never yields null totals: for a project
with no ledger entries it returns exactly the all-zero summary, the
`except` branch taken when the store read fails returns the same all-zero
summary, and the success branch is the plain aggregation. -/
theorem get_project_cost_summary_defaults
    (db : List LedgerEntry) (project_id : String) :
    (projectEntries db project_id = [] →
      get_project_cost_summary db project_id =
        { total_tokens := 0, total_cost_usd := 0, breakdown := [] }) ∧
    get_project_cost_summary_guarded false db project_id =
      { total_tokens := 0, total_cost_usd := 0, breakdown := [] } ∧
    get_project_cost_summary_guarded true db project_id =
      get_project_cost_summary db project_id := by
  refine ⟨?_, rfl, rfl⟩
  intro h
  simp [get_project_cost_summary, h, sqlSumInt, sqlSumQ]

theorem get_project_cost_summary_defaults_witness :
    get_project_cost_summary demoLedger "q" =
      { total_tokens := 0, total_cost_usd := 0, breakdown := [] } :=
  (get_project_cost_summary_defaults demoLedger "q").1 (by decide)

/-- C6: a `log_stage` write with both `start_time = T0` and `end_time = T1`
inserts a row whose `duration_seconds` is exactly `T1 - T0`; whenever
either time is missing the inserted row's `duration_seconds` is null. -/
theorem log_stage_duration
    (db : List LedgerEntry) (project_id stage_name status : String)
    (T0 T1 : ℚ) (tokens_used : Int) (cost_usd : ℚ) (error_message : Option String) :
    (log_stage db project_id stage_name status (some T0) (some T1)
        tokens_used cost_usd error_message).getLast? =
      some { project_id := project_id, stage_name := stage_name, status := status,
             start_time := some T0, end_time := some T1,
             duration_seconds := some (T1 - T0), tokens_used := tokens_used,
             cost_usd := cost_usd, error_message := error_message,
             created_at := db.length } ∧
    (∀ e, (log_stage db project_id stage_name status none e
        tokens_used cost_usd error_message).getLast?.map
          (fun r => r.duration_seconds) = some none) ∧
    (∀ t, (log_stage db project_id stage_name status (some t) none
        tokens_used cost_usd error_message).getLast?.map
          (fun r => r.duration_seconds) = some none) := by
  refine ⟨?_, ?_, ?_⟩
  · simp [log_stage]
  · intro e
    cases e <;> simp [log_stage]
  · intro t
    simp [log_stage]

/-- C5 counterexample: the started-then-completed writes of one stage
invocation within a single run produce two ledger rows for the same
`(project_id, stage_name)` pair — one row with status `started` and a
separate row with status `completed` — not one row transitioning between
statuses. -/
theorem log_stage_two_rows_per_invocation :
    (dbStartedCompleted.filter
        (fun e => e.project_id == "p" && e.stage_name == "intake")).length = 2 ∧
    dbStartedCompleted.map (fun e => e.status) = ["started", "completed"] := by
  exact ⟨rfl, rfl⟩

/-- C5 (amended): `log_stage` is strictly append-only — every call leaves
all previously inserted rows unchanged and appends exactly one new row, so
a stage invocation logged at its start and at its completion yields two
immutable rows for its `(project_id, stage_name)` pair within one run, a
`started` row and a `completed` row, the completion row carrying
`end_time` and the duration computed at insert time. -/
theorem log_stage_append_only
    (db : List LedgerEntry) (project_id stage_name : String) (t0 t1 : ℚ)
    (tokens_used : Int) (cost_usd : ℚ) :
    (log_stage (log_stage db project_id stage_name "started" (some t0) none 0 0 none)
        project_id stage_name "completed" (some t0) (some t1)
        tokens_used cost_usd none).take db.length = db ∧
    (log_stage (log_stage db project_id stage_name "started" (some t0) none 0 0 none)
        project_id stage_name "completed" (some t0) (some t1)
        tokens_used cost_usd none).length = db.length + 2 ∧
    ((log_stage (log_stage db project_id stage_name "started" (some t0) none 0 0 none)
        project_id stage_name "completed" (some t0) (some t1)
        tokens_used cost_usd none).drop db.length).map
      (fun e => (e.project_id, e.stage_name, e.status, e.end_time, e.duration_seconds)) =
      [(project_id, stage_name, "started", none, none),
       (project_id, stage_name, "completed", some t1, some (t1 - t0))] := by
  have hshape :
      log_stage (log_stage db project_id stage_name "started" (some t0) none 0 0 none)
        project_id stage_name "completed" (some t0) (some t1) tokens_used cost_usd none =
      db ++ [{ project_id := project_id, stage_name := stage_name, status := "started",
               start_time := some t0, end_time := none, duration_seconds := none,
               tokens_used := 0, cost_usd := 0, error_message := none,
               created_at := db.length },
             { project_id := project_id, stage_name := stage_name, status := "completed",
               start_time := some t0, end_time := some t1,
               duration_seconds := some (t1 - t0), tokens_used := tokens_used,
               cost_usd := cost_usd, error_message := none,
               created_at := db.length + 1 }] := by
    simp [log_stage]
  rw [hshape]
  refine ⟨List.take_left db _, ?_, ?_⟩
  · simp
  · rw [List.drop_left db _]
    rfl

lemma insertByCreated_cons_of_lt (e x : LedgerEntry) (xs : List LedgerEntry)
    (h : e.created_at < x.created_at) :
    insertByCreated e (x :: xs) = e :: x :: xs := by
  simp [insertByCreated, h]

lemma orderByCreated_eq_self :
    ∀ l : List LedgerEntry, l.Pairwise (fun a b => a.created_at < b.created_at) →
      orderByCreated l = l := by
  intro l
  induction l with
  | nil => intro _; rfl
  | cons x xs ih =>
    intro h
    rw [orderByCreated, ih h.of_cons]
    cases xs with
    | nil => rfl
    | cons y ys =>
      exact insertByCreated_cons_of_lt x y ys
        (List.rel_of_pairwise_cons h (List.mem_cons_self y ys))

/-- C7 counterexample: a ledger in which a row with the later start time was
inserted first.  `get_project_stages` returns the rows in insertion
(`created_at`) order — start times `[5, 3]` — which is not start-time
order. -/
theorem get_project_stages_not_start_time_ordered :
    (get_project_stages dbOutOfOrder "p").map (fun e => e.start_time) =
      [some (5 : ℚ), some 3] ∧
    ¬ startTimesInOrder (get_project_stages dbOutOfOrder "p") := by
  have hshape : get_project_stages dbOutOfOrder "p" =
      [{ project_id := "p", stage_name := "b", status := "started",
         start_time := some 5, end_time := none, duration_seconds := none,
         tokens_used := 0, cost_usd := 0, error_message := none, created_at := 0 },
       { project_id := "p", stage_name := "a", status := "started",
         start_time := some 3, end_time := none, duration_seconds := none,
         tokens_used := 0, cost_usd := 0, error_message := none, created_at := 1 }] := rfl
  constructor
  · rw [hshape]
    rfl
  · intro h
    rw [hshape, startTimesInOrder] at h
    have h2 : (5 : ℚ) ≤ 3 := (List.chain'_cons.mp h).1
    exact absurd h2 (by norm_num)

/-- C7 (amended): `get_project_stages` returns the project's ledger rows
ordered by insertion: whenever the ledger's `created_at` values are
strictly increasing in insertion order — which is how `log_stage` produces
them — the result is exactly the project's rows in insertion order.  That
sequence is not in general additionally sorted by start time. -/
theorem get_project_stages_insertion_order
    (db : List LedgerEntry)
    (h : db.Pairwise (fun a b => a.created_at < b.created_at))
    (project_id : String) :
    get_project_stages db project_id =
      db.filter (fun e => e.project_id = project_id) := by
  unfold get_project_stages
  exact orderByCreated_eq_self _ (h.sublist (List.filter_sublist _))

theorem get_project_stages_insertion_order_witness :
    get_project_stages dbStartedCompleted "p" = dbStartedCompleted :=
  (get_project_stages_insertion_order dbStartedCompleted (by decide) "p").trans rfl

/-- Modelled from the spec: the per-project checkpoint artifact written by
`ProjectManager.save_checkpoint` through `ProjectFileManager.save_json`
(utils/file_manager.py is not under src/).  Spec section 4.5: `save`
serializes the full Pipeline State under a project-scoped location,
overwriting any prior checkpoint for that project (a single checkpoint
slot per project, not versioned).  The collection of checkpoint files is
modelled as an association list from project id to the saved state. -/
def save_checkpoint (store : List (String × PipelineState)) (project_id : String)
    (state : PipelineState) : List (String × PipelineState) :=
  (project_id, state) :: store.filter (fun kv => kv.1 ≠ project_id)

/-- Modelled from the spec: `ProjectManager.load_checkpoint` through
`ProjectFileManager.load_json` — deserializes the last saved state for the
project, absent if none exists (spec section 4.5). -/
def load_checkpoint (store : List (String × PipelineState))
    (project_id : String) : Option PipelineState :=
  store.lookup project_id

/-- C8: checkpoint round-trip — saving a state and loading it back yields a
state equal to the original in all fields; a second save for the same
project overwrites the first, and after a save the store holds exactly one
checkpoint for that project (single slot). -/
theorem checkpoint_round_trip
    (store : List (String × PipelineState)) (project_id : String)
    (state state2 : PipelineState) :
    load_checkpoint (save_checkpoint store project_id state) project_id = some state ∧
    load_checkpoint (save_checkpoint (save_checkpoint store project_id state)
        project_id state2) project_id = some state2 ∧
    ((save_checkpoint store project_id state).filter
        (fun kv => kv.1 == project_id)).length = 1 := by
  refine ⟨?_, ?_, ?_⟩
  · simp [load_checkpoint, save_checkpoint, List.lookup]
  · simp [load_checkpoint, save_checkpoint, List.lookup]
  · simp only [save_checkpoint]
    rw [List.filter_cons]
    have h0 : (store.filter (fun kv => kv.1 ≠ project_id)).filter
        (fun kv => kv.1 == project_id) = [] := by
      rw [List.filter_filter]
      refine List.filter_eq_nil_iff.mpr ?_
      intro kv _
      by_cases h : kv.1 = project_id <;> simp [h]
    simp [h0]

/-- One row of the `projects` table (prompts.py, `_create_tables`). -/
structure ProjectRow where
  project_id : String
  user_id : String
  video_name : String
  video_path : String
  status : String
  current_stage : Option String
  upload_time : Option ℚ
  processing_start : Option ℚ
  processing_end : Option ℚ
  duration_seconds : Option ℚ
  file_size_mb : Option ℚ
  resolution : Option String
  error_message : Option String
  created_at : ℚ
  updated_at : ℚ
deriving DecidableEq

/-- Python truthiness of the optional `current_stage` argument
(`if current_stage:`): `None` and the empty string are falsy. -/
def truthyStage : Option String → Bool
  | none => false
  | some s => s ≠ ""

/-- Effect of `Database.update_project_status` (prompts.py) on a single
`projects` row: the first UPDATE sets `status` (and `current_stage` when
the argument is truthy) and `updated_at = CURRENT_TIMESTAMP`; then, when
`status == "processing"`, a second UPDATE sets `processing_start` only
`WHERE processing_start IS NULL`, and when `status` is one of
`complete`/`error`/`failed` it sets `processing_end` unconditionally. -/
def updateProjectRow (now : ℚ) (project_id status : String)
    (current_stage : Option String) (row : ProjectRow) : ProjectRow :=
  if row.project_id = project_id then
    let r1 := if truthyStage current_stage then
        { row with status := status, current_stage := current_stage, updated_at := now }
      else { row with status := status, updated_at := now }
    if status = "processing" then
      if r1.processing_start = none then { r1 with processing_start := some now } else r1
    else if status = "complete" ∨ status = "error" ∨ status = "failed" then
      { r1 with processing_end := some now }
    else r1
  else row

/-- `Database.update_project_status` applied to the `projects` table
(each UPDATE's `WHERE project_id = ?` touches exactly the matching rows). -/
def update_project_status (db : List ProjectRow) (now : ℚ)
    (project_id status : String) (current_stage : Option String) : List ProjectRow :=
  db.map (updateProjectRow now project_id status current_stage)

/-- C10: `update_project_status` leaves non-matching rows unchanged; on the
matching row it writes `status`; with status `processing` it fills
`processing_start` only when currently NULL — so a `processing_start` that
is already set is never overwritten by any status update — and leaves
`processing_end` alone; with status `complete`/`error`/`failed` it
(re)writes `processing_end` and leaves `processing_start` alone; and every
field other than `status`, `current_stage`, `updated_at`,
`processing_start`, `processing_end` is left unchanged. -/
theorem update_project_status_fields
    (db : List ProjectRow) (now : ℚ) (project_id status : String)
    (current_stage : Option String) (row : ProjectRow) :
    update_project_status db now project_id status current_stage =
      db.map (updateProjectRow now project_id status current_stage) ∧
    (row.project_id ≠ project_id →
      updateProjectRow now project_id status current_stage row = row) ∧
    (row.project_id = project_id →
      (updateProjectRow now project_id status current_stage row).status = status ∧
      (status = "processing" →
        (updateProjectRow now project_id status current_stage row).processing_start =
          (if row.processing_start = none then some now else row.processing_start) ∧
        (updateProjectRow now project_id status current_stage row).processing_end =
          row.processing_end) ∧
      (∀ t, row.processing_start = some t →
        (updateProjectRow now project_id status current_stage row).processing_start =
          some t) ∧
      ((status = "complete" ∨ status = "error" ∨ status = "failed") →
        (updateProjectRow now project_id status current_stage row).processing_end =
          some now ∧
        (updateProjectRow now project_id status current_stage row).processing_start =
          row.processing_start) ∧
      ((updateProjectRow now project_id status current_stage row).user_id = row.user_id ∧
        (updateProjectRow now project_id status current_stage row).video_name =
          row.video_name ∧
        (updateProjectRow now project_id status current_stage row).video_path =
          row.video_path ∧
        (updateProjectRow now project_id status current_stage row).upload_time =
          row.upload_time ∧
        (updateProjectRow now project_id status current_stage row).created_at =
          row.created_at ∧
        (updateProjectRow now project_id status current_stage row).duration_seconds =
          row.duration_seconds ∧
        (updateProjectRow now project_id status current_stage row).file_size_mb =
          row.file_size_mb ∧
        (updateProjectRow now project_id status current_stage row).resolution =
          row.resolution ∧
        (updateProjectRow now project_id status current_stage row).error_message =
          row.error_message)) := by
  refine ⟨rfl, ?_, ?_⟩
  · intro h
    simp [updateProjectRow, h]
  · intro h
    unfold updateProjectRow
    rw [if_pos h]
    by_cases hts : truthyStage current_stage <;>
      simp only [hts, if_true, if_false] <;>
      split_ifs with h1 h2 <;>
      simp_all

/-- Concrete matching row whose `processing_start` is already set. -/
def demoRowStarted : ProjectRow :=
  { project_id := "p", user_id := "u", video_name := "v", video_path := "path",
    status := "processing", current_stage := some "intake", upload_time := none,
    processing_start := some 1, processing_end := none, duration_seconds := none,
    file_size_mb := none, resolution := none, error_message := none,
    created_at := 0, updated_at := 0 }

theorem update_project_status_fields_witness :
    (updateProjectRow 9 "p" "processing" none demoRowStarted).processing_start = some 1 :=
  ((update_project_status_fields [] 9 "p" "processing" none
    demoRowStarted).2.2 rfl).2.2.1 1 rfl
